import Mathlib

/-!
Verification development for the anomaly-detection service
(`anomaly-service/model.py`, `anomaly-service/datasets.py`,
`anomaly-service/train_lstm_model.py`).

Numeric values are embedded as exact rationals (`ℚ`).  The external
machine-learning library calls (scikit-learn's `StandardScaler` and
`IsolationForest`, the Keras LSTM trainer) are out of scope for the
repository and are embedded as an abstract capability structure `MLImpl`,
exactly the boundary the repository code programs against: `fit` may fail,
`transform`/`score_samples`/`predict` are applied to the data the
repository hands them.  Everything on the repository's side of that
boundary (reshaping, scaling order, state mutation, exception handling,
report building, persistence, the singleton lifecycle) is translated
directly from the source.
-/

/-- Arithmetic mean of a list of rationals: `np.mean` on a nonempty array. -/
def listMean (l : List ℚ) : ℚ := l.sum / l.length

/-- Maximum of a list of rationals: `np.max` on a nonempty array. -/
def listMax (l : List ℚ) : ℚ := l.foldl max (l.headD 0)

/-- Minimum of a list of rationals: `np.min` on a nonempty array. -/
def listMin (l : List ℚ) : ℚ := l.foldl min (l.headD 0)

/-- Python's `max` over a list of naturals: fails (`none`) on the empty list. -/
def natMax? (l : List ℕ) : Option ℕ :=
  match l with
  | [] => none
  | x :: xs => some (xs.foldl max x)

/-- The epsilon constant `1e-8` of `DatasetLoader.normalize_data`. -/
def epsQ : ℚ := 1 / 100000000

/-- `DatasetLoader.normalize_data`: min-max scaling with the `1e-8` guard.
`np.min` / `np.max` raise on an empty array, embedded as the `.error` case. -/
def normalize_data (data : List ℚ) :
    Except String (List ℚ × ℚ × ℚ) :=
  if data.isEmpty then
    Except.error "zero-size array to reduction operation minimum which has no identity"
  else
    let min_val := listMin data
    let max_val := listMax data
    let normalized := data.map (fun v => (v - min_val) / (max_val - min_val + epsQ))
    Except.ok (normalized, min_val, max_val)

/-- `DatasetLoader.create_sequences`: `for i in range(len(data) - seq_length + 1)`
emit `data[i : i + seq_length]`.  The Python range bound is a signed integer, so a
window longer than the series gives an empty range, embedded via `Int.toNat`. -/
def create_sequences (data : List ℚ) (seq_length : ℕ) : List (List ℚ) :=
  (List.range (((data.length : ℤ) - (seq_length : ℤ) + 1).toNat)).map
    (fun i => (data.drop i).take seq_length)

/-- `DatasetLoader.prepare_data` after the column has been selected, coerced to
float and flattened (`values` is that flattened series): normalize, then window. -/
def prepare_data (values : List ℚ) (seq_length : ℕ) :
    Except String (List (List ℚ) × ℚ × ℚ) :=
  match normalize_data values with
  | Except.error e => Except.error e
  | Except.ok (normalized_data, min_val, max_val) =>
      Except.ok (create_sequences normalized_data seq_length, min_val, max_val)

-- Helper lemmas about list minima and maxima.

theorem foldl_min_le_init (l : List ℚ) (a : ℚ) : l.foldl min a ≤ a := by
  induction l generalizing a with
  | nil => simp
  | cons x xs ih =>
      calc (x :: xs).foldl min a = xs.foldl min (min a x) := rfl
        _ ≤ min a x := ih (min a x)
        _ ≤ a := min_le_left a x

theorem foldl_min_le_mem (l : List ℚ) (a v : ℚ) (hv : v ∈ l) : l.foldl min a ≤ v := by
  induction l generalizing a with
  | nil => cases hv
  | cons x xs ih =>
      rcases List.mem_cons.mp hv with h | h
      · subst h
        calc (v :: xs).foldl min a = xs.foldl min (min a v) := rfl
          _ ≤ min a v := foldl_min_le_init xs (min a v)
          _ ≤ v := min_le_right a v
      · exact ih (min a x) h

theorem init_le_foldl_max (l : List ℚ) (a : ℚ) : a ≤ l.foldl max a := by
  induction l generalizing a with
  | nil => simp
  | cons x xs ih =>
      calc a ≤ max a x := le_max_left a x
        _ ≤ xs.foldl max (max a x) := ih (max a x)
        _ = (x :: xs).foldl max a := rfl

theorem mem_le_foldl_max (l : List ℚ) (a v : ℚ) (hv : v ∈ l) : v ≤ l.foldl max a := by
  induction l generalizing a with
  | nil => cases hv
  | cons x xs ih =>
      rcases List.mem_cons.mp hv with h | h
      · subst h
        calc v ≤ max a v := le_max_right a v
          _ ≤ xs.foldl max (max a v) := init_le_foldl_max xs (max a v)
          _ = (v :: xs).foldl max a := rfl
      · exact ih (max a x) h

theorem listMin_le (l : List ℚ) (v : ℚ) (hv : v ∈ l) : listMin l ≤ v :=
  foldl_min_le_mem l (l.headD 0) v hv

theorem le_listMax (l : List ℚ) (v : ℚ) (hv : v ∈ l) : v ≤ listMax l :=
  mem_le_foldl_max l (l.headD 0) v hv

/-!
## Embedding of `model.py`

`AnomalyDetectionModel` instance state, the two persisted artifact files, and
the module-level singleton.  Type parameters: `P` = fitted scaler parameters
(a fitted `StandardScaler`), `F` = a fitted `IsolationForest`, `L` = a trained
Keras LSTM model.
-/

/-- The external machine-learning library capability the repository code calls
into.  Modelled from the spec: the statistical model implementations themselves
(scaler fitting and transforming, isolation-forest fitting and scoring, LSTM
training) are out of scope and specified only via this interface; `fit`-style
operations may raise (embedded as `Except.error` carrying the message),
as may `transform` on malformed input. -/
structure MLImpl (P F L : Type) where
  scalerFit : List (List ℚ) → Except String P
  scalerTransform : P → List (List ℚ) → Except String (List (List ℚ))
  forestFit : ℚ → List (List ℚ) → Except String F
  forestScore : F → List (List ℚ) → List ℚ
  forestPredict : F → List (List ℚ) → List ℤ
  lstmTrain : List (List ℚ) → ℕ → ℕ → Except String L

/-- The possible values of the Python attribute `self.model`: `None`, an
`IsolationForest` constructed but whose `fit` raised (train assigns the object
before fitting it), a fitted forest, or an LSTM model assigned by
`train_with_dataset`. -/
inductive ModelField (F L : Type) where
  | noModel : ModelField F L
  | unfitForest : ModelField F L
  | fittedForest (f : F) : ModelField F L
  | lstmModel (m : L) : ModelField F L
deriving DecidableEq, Repr

/-- Instance state of `AnomalyDetectionModel`: the scaler attribute (`none` =
a fresh unfitted `StandardScaler()`), the model attribute, the trained flag and
the threshold.  The two path strings are fixed at construction and carried by
the filesystem embedding instead. -/
structure AnomalyDetectionModel (P F L : Type) where
  scaler : Option P
  model : ModelField F L
  is_trained : Bool
  threshold : ℚ
deriving DecidableEq, Repr

/-- The two artifact files: contents at `model_path` and at `scaler_path`
(`none` = file absent). -/
structure FS (P F : Type) where
  modelFile : Option F
  scalerFile : Option P
deriving DecidableEq, Repr

/-- The state `__init__` constructs: unfitted scaler, `model = None`,
`is_trained = False`, `threshold = 0.5`. -/
def initModel (P F L : Type) : AnomalyDetectionModel P F L :=
  { scaler := none, model := ModelField.noModel, is_trained := false, threshold := 1/2 }

/-- The dictionary `train` returns.  Fields absent from the error dictionary
are `none`. -/
structure TrainReport where
  status : String
  message : String
  samples_trained : Option ℕ
  mean_score : Option ℚ
  max_score : Option ℚ
  min_score : Option ℚ
  timestamp : String
deriving DecidableEq, Repr

/-- `data.reshape(-1, 1)` applied to a 1-D series: one single-feature row per
value. -/
def reshape1 (data : List ℚ) : List (List ℚ) := data.map (fun v => [v])

/-- The error dictionary of `train`'s `except` branch. -/
def errReport (e now : String) : TrainReport :=
  { status := "error", message := e, samples_trained := none,
    mean_score := none, max_score := none, min_score := none, timestamp := now }

/-- `AnomalyDetectionModel.train`, translated step for step: reshape, scaler
`fit_transform` (fit, then transform, each able to raise), assignment of the
constructed forest before `fit`, forest `fit`, setting the trained flag,
dumping both artifacts, scoring the training set, and report building
(`np.max` raises on an empty score array, after the artifacts were already
written).  Every exception is caught and turned into the error report. -/
def train (M : MLImpl P F L) (now : String) (fs : FS P F)
    (st : AnomalyDetectionModel P F L) (data : List ℚ) (contamination : ℚ) :
    FS P F × AnomalyDetectionModel P F L × TrainReport :=
  let rows := reshape1 data
  match M.scalerFit rows with
  | Except.error e => (fs, st, errReport e now)
  | Except.ok p =>
    let st1 := { st with scaler := some p }
    match M.scalerTransform p rows with
    | Except.error e => (fs, st1, errReport e now)
    | Except.ok data_scaled =>
      let st2 := { st1 with model := ModelField.unfitForest }
      match M.forestFit contamination data_scaled with
      | Except.error e => (fs, st2, errReport e now)
      | Except.ok f =>
        let st3 := { st1 with model := ModelField.fittedForest f, is_trained := true }
        let fs1 : FS P F := { modelFile := some f, scalerFile := some p }
        let scores := (M.forestScore f data_scaled).map (fun s => -s)
        if scores.isEmpty then
          (fs1, st3, errReport "zero-size array to reduction operation maximum which has no identity" now)
        else
          (fs1, st3,
            { status := "success", message := "Model trained successfully",
              samples_trained := some rows.length,
              mean_score := some (listMean scores),
              max_score := some (listMax scores),
              min_score := some (listMin scores),
              timestamp := now })

/-- The exceptions `predict` can raise to its caller: the explicit
not-trained `ValueError`, a `FileNotFoundError` from `joblib.load` during the
lazy load, or the `ValueError` wrapping any exception of the guarded block. -/
inductive PredErr where
  | notTrained : PredErr
  | loadFailure : PredErr
  | predictionError (msg : String) : PredErr
deriving DecidableEq, Repr

/-- The message of each exception as the caller observes it. -/
def PredErr.message : PredErr → String
  | PredErr.notTrained => "Model not trained. Please train the model first."
  | PredErr.loadFailure => "No such file or directory"
  | PredErr.predictionError m => "Error during prediction: " ++ m

/-- `AnomalyDetectionModel.predict`: the not-trained guard tests
`self.is_trained` and the existence of the model file only; the lazy load runs
when `self.model is None`, loading the model file first and then the scaler
file (so a missing scaler file surfaces after the model attribute was already
replaced); the guarded block reshapes, transforms with the stored scaler
(raising if the scaler is unfitted), scores, and derives binary labels.
Returns the (possibly mutated) instance state together with the outcome. -/
def predict (M : MLImpl P F L) (fs : FS P F)
    (st : AnomalyDetectionModel P F L) (data : List ℚ) :
    AnomalyDetectionModel P F L × Except PredErr (List ℚ × List ℕ) :=
  if !st.is_trained && fs.modelFile.isNone then
    (st, Except.error PredErr.notTrained)
  else
    let loaded : AnomalyDetectionModel P F L × Option PredErr :=
      match st.model with
      | ModelField.noModel =>
        match fs.modelFile with
        | none => (st, some PredErr.loadFailure)
        | some f =>
          let stm := { st with model := ModelField.fittedForest f }
          match fs.scalerFile with
          | none => (stm, some PredErr.loadFailure)
          | some p => ({ stm with scaler := some p }, none)
      | _ => (st, none)
    match loaded with
    | (stl, some e) => (stl, Except.error e)
    | (stl, none) =>
      let rows := reshape1 data
      match stl.scaler with
      | none =>
          (stl, Except.error (PredErr.predictionError "This StandardScaler instance is not fitted yet"))
      | some p =>
        match M.scalerTransform p rows with
        | Except.error e => (stl, Except.error (PredErr.predictionError e))
        | Except.ok data_scaled =>
          match stl.model with
          | ModelField.fittedForest f =>
            let scores := (M.forestScore f data_scaled).map (fun s => -s)
            let labels := (M.forestPredict f data_scaled).map
              (fun q => if q = -1 then (1 : ℕ) else 0)
            (stl, Except.ok (scores, labels))
          | _ =>
              (stl, Except.error (PredErr.predictionError "model is not fitted yet"))

/-- One entry of the `results` dictionary built by `predict_batch`. -/
structure SeqResult where
  scores : List ℚ
  labels : List ℕ
  is_anomalous : Bool
deriving DecidableEq, Repr

/-- The dictionary `predict_batch` returns.  On success `predictions` holds one
keyed entry per series; the error dictionary has no predictions key at all
(embedded as the empty list) and carries the message. -/
structure BatchReport where
  status : String
  predictions : List (String × SeqResult)
  message : Option String
  timestamp : String
deriving DecidableEq, Repr

/-- The loop of `predict_batch`: series are processed in order, each through
`predict`; state mutations (the lazy load) persist across iterations and
beyond an exception.  The first exception — from `predict` or from Python's
`max` on an empty label list — stops the loop and is reported; entries
collected so far are discarded because the `except` branch returns a fresh
dictionary. -/
def pbLoop (M : MLImpl P F L) (fs : FS P F) :
    AnomalyDetectionModel P F L → ℕ → List (List ℚ) →
    AnomalyDetectionModel P F L × Except String (List (String × SeqResult))
  | st, _, [] => (st, Except.ok [])
  | st, i, d :: rest =>
    match predict M fs st d with
    | (st1, Except.error e) => (st1, Except.error e.message)
    | (st1, Except.ok (scores, labels)) =>
      match natMax? labels with
      | none => (st1, Except.error "max() arg is an empty sequence")
      | some m =>
        let entry : String × SeqResult :=
          ("sequence_" ++ toString i, { scores := scores, labels := labels, is_anomalous := m == 1 })
        match pbLoop M fs st1 (i + 1) rest with
        | (st2, Except.ok rs) => (st2, Except.ok (entry :: rs))
        | (st2, Except.error msg) => (st2, Except.error msg)

/-- `AnomalyDetectionModel.predict_batch`: run the loop inside one `try`;
any exception yields the whole-batch error dictionary. -/
def predict_batch (M : MLImpl P F L) (now : String) (fs : FS P F)
    (st : AnomalyDetectionModel P F L) (data_list : List (List ℚ)) :
    AnomalyDetectionModel P F L × BatchReport :=
  match pbLoop M fs st 0 data_list with
  | (st1, Except.ok rs) =>
      (st1, { status := "success", predictions := rs, message := none, timestamp := now })
  | (st1, Except.error msg) =>
      (st1, { status := "error", predictions := [], message := some msg, timestamp := now })

/-- `AnomalyDetectionModel.set_threshold`: store the threshold when
`0 <= threshold <= 1`, else raise `ValueError` leaving the instance
untouched.  Returns the instance state and the raised message, if any. -/
def set_threshold (st : AnomalyDetectionModel P F L) (threshold : ℚ) :
    AnomalyDetectionModel P F L × Option String :=
  if 0 ≤ threshold ∧ threshold ≤ 1 then
    ({ st with threshold := threshold }, none)
  else
    (st, some "Threshold must be between 0 and 1")

/-- Module state: the global `model_instance` (initially `None`) together with
the artifact files. -/
structure GlobalState (P F L : Type) where
  singleton : Option (AnomalyDetectionModel P F L)
  fs : FS P F
deriving DecidableEq, Repr

/-- `get_model`: lazily create the global instance on first access. -/
def get_model (g : GlobalState P F L) :
    GlobalState P F L × AnomalyDetectionModel P F L :=
  match g.singleton with
  | some m => (g, m)
  | none =>
      let m := initModel P F L
      ({ g with singleton := some m }, m)

/-- `load_model`: if both artifact files exist, deserialize them into the
singleton and mark it trained; otherwise return the singleton unchanged. -/
def load_model (g : GlobalState P F L) :
    GlobalState P F L × AnomalyDetectionModel P F L :=
  let gm := get_model g
  match gm.1.fs.modelFile, gm.1.fs.scalerFile with
  | some f, some p =>
      let m1 : AnomalyDetectionModel P F L :=
        { scaler := some p, model := ModelField.fittedForest f,
          is_trained := true, threshold := gm.2.threshold }
      ({ gm.1 with singleton := some m1 }, m1)
  | _, _ => gm

/-- `train_with_dataset`: `csv` stands for the outcome of
`DatasetLoader.load_csv` plus the column selection and float coercion of
`prepare_data` (pandas, out of scope): the flattened numeric series, or the
exception those steps raised.  The pipeline then normalizes and windows with
`seq_length = 30`, rejects an empty window list, trains the LSTM, and assigns
the trained model into the singleton in memory; every exception is caught and
turned into `false`.  No artifact file is touched. -/
def train_with_dataset (M : MLImpl P F L) (csv : Except String (List ℚ))
    (g : GlobalState P F L) : GlobalState P F L × Bool :=
  match csv with
  | Except.error _ => (g, false)
  | Except.ok values =>
    match prepare_data values 30 with
    | Except.error _ => (g, false)
    | Except.ok (sequences, _, _) =>
      if sequences.length = 0 then (g, false)
      else
        match M.lstmTrain sequences 50 32 with
        | Except.error _ => (g, false)
        | Except.ok lstm =>
          let gm := get_model g
          let m1 := { gm.2 with model := ModelField.lstmModel lstm, is_trained := true }
          ({ gm.1 with singleton := some m1 }, true)

/-!
## A concrete library instance

Concrete stand-in for the out-of-scope library capabilities, used to evaluate
the development on closed inputs.  Modelled from the spec: fitting fails on an
empty array and when contamination leaves `[0, 0.5]`; `transform` fails on an
empty array; standardization's standard deviation is irrational over `ℚ`, so
the stand-in parameters are mean and unit scale.  Every claim theorem about
the repository code is quantified over an arbitrary `MLImpl`.
-/

/-- Concrete scaler fit: mean of the single feature column, unit scale. -/
def cScalerFit (rows : List (List ℚ)) : Except String (ℚ × ℚ) :=
  if rows.isEmpty then Except.error "Found array with 0 samples"
  else Except.ok (listMean (rows.map (fun r => r.headD 0)), 1)

/-- Concrete scaler transform: center and scale with the fitted parameters. -/
def cScalerTransform (p : ℚ × ℚ) (rows : List (List ℚ)) :
    Except String (List (List ℚ)) :=
  if rows.isEmpty then Except.error "Found array with 0 samples"
  else Except.ok (rows.map (fun r => r.map (fun v => (v - p.1) / p.2)))

/-- Concrete forest fit: keeps the training rows; rejects an empty array and
a contamination outside the valid interval. -/
def cForestFit (contamination : ℚ) (rows : List (List ℚ)) :
    Except String (List (List ℚ)) :=
  if rows.isEmpty then Except.error "Found array with 0 samples"
  else if 0 ≤ contamination ∧ contamination ≤ 1/2 then Except.ok rows
  else Except.error "contamination must be in the interval 0 to 0.5"

/-- Concrete score_samples: a constant score per row. -/
def cForestScore (_f : List (List ℚ)) (rows : List (List ℚ)) : List ℚ :=
  rows.map (fun _ => -1)

/-- Concrete forest predict: flags values far from zero as outliers. -/
def cForestPredict (_f : List (List ℚ)) (rows : List (List ℚ)) : List ℤ :=
  rows.map (fun r => if 100 < r.headD 0 then -1 else 1)

/-- Concrete LSTM trainer: keeps the window list. -/
def cLstmTrain (sequences : List (List ℚ)) (_epochs _batch : ℕ) :
    Except String (List (List ℚ)) :=
  if sequences.isEmpty then Except.error "empty training data"
  else Except.ok sequences

/-- The bundled concrete instance. -/
def cM : MLImpl (ℚ × ℚ) (List (List ℚ)) (List (List ℚ)) :=
  { scalerFit := cScalerFit, scalerTransform := cScalerTransform,
    forestFit := cForestFit, forestScore := cForestScore,
    forestPredict := cForestPredict, lstmTrain := cLstmTrain }

/-- Empty filesystem: neither artifact present. -/
def cFS0 : FS (ℚ × ℚ) (List (List ℚ)) := { modelFile := none, scalerFile := none }

/-- A trained in-memory instance for concrete evaluations. -/
def cTrained : AnomalyDetectionModel (ℚ × ℚ) (List (List ℚ)) (List (List ℚ)) :=
  { scaler := some (0, 1), model := ModelField.fittedForest [[0]],
    is_trained := true, threshold := 1/2 }

/-!
## Claim theorems
-/

/-- C3: for a series of length `N` and window length `L ≤ N`, `create_sequences`
produces exactly `N - L + 1` windows, each of length `L`, with window `i` equal
to `series[i : i+L]` in original time order; for `L > N` it produces zero
windows and no exception. -/
theorem create_sequences_spec (data : List ℚ) (L : ℕ) :
    (L ≤ data.length →
      (create_sequences data L).length = data.length - L + 1 ∧
      ∀ i, i < data.length - L + 1 →
        (create_sequences data L).getD i [] = (data.drop i).take L ∧
        ((create_sequences data L).getD i []).length = L) ∧
    (data.length < L → create_sequences data L = []) := by
  constructor
  · intro hL
    have hcast : (((data.length : ℤ) - (L : ℤ) + 1).toNat) = data.length - L + 1 := by
      omega
    constructor
    · simp [create_sequences, hcast]
    · intro i hi
      have hget : (create_sequences data L).getD i [] = (data.drop i).take L := by
        simp only [create_sequences, hcast]
        rw [List.getD_eq_getElem?_getD]
        rw [List.getElem?_map]
        rw [List.getElem?_range hi]
        rfl
      refine ⟨hget, ?_⟩
      rw [hget]
      simp only [List.length_take, List.length_drop]
      omega
  · intro hL
    have hcast : (((data.length : ℤ) - (L : ℤ) + 1).toNat) = 0 := by omega
    simp [create_sequences, hcast]

/-- C3 witness: a length-4 series with window length 2 gives 3 windows of
length 2 in order; window length 7 on a length-3 series gives no windows. -/
theorem create_sequences_spec_witness :
    ((create_sequences [1, 2, 3, 4] 2).length = 3 ∧
      (create_sequences [1, 2, 3, 4] 2).getD 1 [] = [2, 3]) ∧
    create_sequences ([1, 2, 3] : List ℚ) 7 = [] := by
  have h := create_sequences_spec [1, 2, 3, 4] 2
  have h2 := create_sequences_spec [1, 2, 3] 7
  refine ⟨⟨?_, ?_⟩, h2.2 (by decide)⟩
  · exact (h.1 (by decide)).1
  · exact ((h.1 (by decide)).2 1 (by decide)).1

theorem epsQ_pos : 0 < epsQ := by norm_num [epsQ]

/-- C4: on a nonempty series, `normalize_data` returns without raising; when
`max > min` every normalized value lies in `[0, 1]` and
`normalized * (max - min) + min` recovers the original value to within the
`1e-8` epsilon; when `max = min` every normalized value is `0`. -/
theorem normalize_data_spec (data : List ℚ) (hne : data ≠ []) :
    ∃ norm, normalize_data data = Except.ok (norm, listMin data, listMax data) ∧
      norm = data.map (fun v => (v - listMin data) / (listMax data - listMin data + epsQ)) ∧
      (listMin data < listMax data →
        ∀ v ∈ data,
          0 ≤ (v - listMin data) / (listMax data - listMin data + epsQ) ∧
          (v - listMin data) / (listMax data - listMin data + epsQ) ≤ 1 ∧
          |(v - listMin data) / (listMax data - listMin data + epsQ) *
              (listMax data - listMin data) + listMin data - v| < epsQ) ∧
      (listMax data = listMin data → ∀ x ∈ norm, x = 0) := by
  have hne' : ¬ data.isEmpty := by
    cases data with
    | nil => exact absurd rfl hne
    | cons x xs => simp
  refine ⟨data.map (fun v => (v - listMin data) / (listMax data - listMin data + epsQ)),
    ?_, rfl, ?_, ?_⟩
  · simp [normalize_data, hne']
  · intro hlt v hv
    set mn := listMin data with hmn
    set mx := listMax data with hmx
    have hvmn : mn ≤ v := listMin_le data v hv
    have hvmx : v ≤ mx := le_listMax data v hv
    have hden : 0 < mx - mn + epsQ := by
      have := epsQ_pos
      linarith
    refine ⟨div_nonneg (by linarith) (le_of_lt hden), ?_, ?_⟩
    · rw [div_le_one hden]
      have hε := epsQ_pos
      linarith
    · have key : (v - mn) / (mx - mn + epsQ) * (mx - mn) + mn - v
          = -((v - mn) * epsQ / (mx - mn + epsQ)) := by
        field_simp
        ring
      rw [key, abs_neg]
      have hnum : 0 ≤ (v - mn) * epsQ := mul_nonneg (by linarith) (le_of_lt epsQ_pos)
      rw [abs_of_nonneg (div_nonneg hnum (le_of_lt hden))]
      rw [div_lt_iff₀ hden]
      have hstep : v - mn < mx - mn + epsQ := by
        have := epsQ_pos
        linarith
      nlinarith [epsQ_pos]
  · intro heq x hx
    rcases List.mem_map.mp hx with ⟨v, hv, hxv⟩
    have hvmn : listMin data ≤ v := listMin_le data v hv
    have hvmx : v ≤ listMax data := le_listMax data v hv
    have hveq : v = listMin data := by linarith [le_of_eq heq]
    rw [← hxv, hveq]
    simp

/-- C4 witness: on the series `[1, 2, 4]` normalization succeeds with min 1 and
max 4, and the middle value's bounds and recovery hold concretely. -/
theorem normalize_data_spec_witness :
    (∃ norm, normalize_data ([1, 2, 4] : List ℚ)
        = Except.ok (norm, listMin [1, 2, 4], listMax [1, 2, 4])) ∧
    (0 ≤ ((2 : ℚ) - listMin [1, 2, 4]) / (listMax [1, 2, 4] - listMin [1, 2, 4] + epsQ) ∧
      ((2 : ℚ) - listMin [1, 2, 4]) / (listMax [1, 2, 4] - listMin [1, 2, 4] + epsQ) ≤ 1) := by
  obtain ⟨norm, hok, _, hbounds, _⟩ := normalize_data_spec ([1, 2, 4] : List ℚ) (by decide)
  have hb := hbounds (by decide) 2 (by decide)
  exact ⟨⟨norm, hok⟩, hb.1, hb.2.1⟩

/-- Iterated prediction: run `predict` on each input in turn, threading the
instance state (Python mutates `self` in place, so the state carries over). -/
def predictSeq (M : MLImpl P F L) (fs : FS P F) :
    AnomalyDetectionModel P F L → List (List ℚ) → AnomalyDetectionModel P F L
  | st, [] => st
  | st, d :: ds => predictSeq M fs (predict M fs st d).1 ds

theorem predict_preserves_state (M : MLImpl P F L) (fs : FS P F)
    (st : AnomalyDetectionModel P F L) (d : List ℚ) (f : F)
    (hm : st.model = ModelField.fittedForest f) :
    (predict M fs st d).1 = st := by
  unfold predict
  rw [hm]
  by_cases hg : (!st.is_trained && fs.modelFile.isNone) = true
  · simp [hg]
  · simp only [hg, if_false, Bool.false_eq_true]
    cases hsc : st.scaler with
    | none => simp
    | some p =>
        cases htf : M.scalerTransform p (reshape1 d) with
        | error e => simp [htf]
        | ok scaled => simp [htf, hm]

theorem predictSeq_preserves_state (M : MLImpl P F L) (fs : FS P F)
    (st : AnomalyDetectionModel P F L) (ds : List (List ℚ)) (f : F)
    (hm : st.model = ModelField.fittedForest f) :
    predictSeq M fs st ds = st := by
  induction ds with
  | nil => rfl
  | cons d rest ih =>
      show predictSeq M fs (predict M fs st d).1 rest = st
      rw [predict_preserves_state M fs st d f hm]
      exact ih

theorem predict_eval (M : MLImpl P F L) (fs : FS P F)
    (st : AnomalyDetectionModel P F L) (d : List ℚ) (f : F) (p : P)
    (scaled : List (List ℚ))
    (hm : st.model = ModelField.fittedForest f) (hsc : st.scaler = some p)
    (hit : st.is_trained = true)
    (ht : M.scalerTransform p (reshape1 d) = Except.ok scaled) :
    predict M fs st d =
      (st, Except.ok ((M.forestScore f scaled).map (fun s => -s),
        (M.forestPredict f scaled).map (fun q => if q = -1 then (1 : ℕ) else 0))) := by
  unfold predict
  simp [hm, hsc, hit, ht]

theorem train_eval_success (M : MLImpl P F L) (now : String) (fs : FS P F)
    (st : AnomalyDetectionModel P F L) (data : List ℚ) (c : ℚ)
    (p : P) (scaled : List (List ℚ)) (f : F)
    (h1 : M.scalerFit (reshape1 data) = Except.ok p)
    (h2 : M.scalerTransform p (reshape1 data) = Except.ok scaled)
    (h3 : M.forestFit c scaled = Except.ok f)
    (h4 : M.forestScore f scaled ≠ []) :
    train M now fs st data c =
      ({ modelFile := some f, scalerFile := some p },
       { scaler := some p, model := ModelField.fittedForest f,
         is_trained := true, threshold := st.threshold },
       { status := "success", message := "Model trained successfully",
         samples_trained := some (reshape1 data).length,
         mean_score := some (listMean ((M.forestScore f scaled).map (fun s => -s))),
         max_score := some (listMax ((M.forestScore f scaled).map (fun s => -s))),
         min_score := some (listMin ((M.forestScore f scaled).map (fun s => -s))),
         timestamp := now }) := by
  have hemp : ((M.forestScore f scaled).map (fun s => -s)).isEmpty = false := by
    cases hsc : M.forestScore f scaled with
    | nil => exact absurd hsc h4
    | cons x xs => simp
  unfold train
  simp [h1, h2, h3, hemp]

theorem train_success_inv (M : MLImpl P F L) (now : String) (fs : FS P F)
    (st : AnomalyDetectionModel P F L) (data : List ℚ) (c : ℚ)
    (hs : (train M now fs st data c).2.2.status = "success") :
    ∃ p scaled f,
      M.scalerFit (reshape1 data) = Except.ok p ∧
      M.scalerTransform p (reshape1 data) = Except.ok scaled ∧
      M.forestFit c scaled = Except.ok f ∧
      M.forestScore f scaled ≠ [] := by
  cases hf1 : M.scalerFit (reshape1 data) with
  | error e =>
      exfalso
      unfold train at hs
      simp [hf1, errReport] at hs
  | ok p =>
      cases hf2 : M.scalerTransform p (reshape1 data) with
      | error e =>
          exfalso
          unfold train at hs
          simp [hf1, hf2, errReport] at hs
      | ok scaled =>
          cases hf3 : M.forestFit c scaled with
          | error e =>
              exfalso
              unfold train at hs
              simp [hf1, hf2, hf3, errReport] at hs
          | ok f =>
              refine ⟨p, scaled, f, rfl, hf2, hf3, ?_⟩
              intro hnil
              unfold train at hs
              simp [hf1, hf2, hf3, hnil, errReport] at hs

theorem train_eval_err1 (M : MLImpl P F L) (now : String) (fs : FS P F)
    (st : AnomalyDetectionModel P F L) (data : List ℚ) (c : ℚ) (e : String)
    (h : M.scalerFit (reshape1 data) = Except.error e) :
    train M now fs st data c = (fs, st, errReport e now) := by
  unfold train
  simp [h]

theorem train_eval_err2 (M : MLImpl P F L) (now : String) (fs : FS P F)
    (st : AnomalyDetectionModel P F L) (data : List ℚ) (c : ℚ) (p : P) (e : String)
    (h1 : M.scalerFit (reshape1 data) = Except.ok p)
    (h2 : M.scalerTransform p (reshape1 data) = Except.error e) :
    train M now fs st data c =
      (fs, { scaler := some p, model := st.model, is_trained := st.is_trained,
             threshold := st.threshold }, errReport e now) := by
  unfold train
  simp [h1, h2]

theorem train_eval_err3 (M : MLImpl P F L) (now : String) (fs : FS P F)
    (st : AnomalyDetectionModel P F L) (data : List ℚ) (c : ℚ) (p : P)
    (scaled : List (List ℚ)) (e : String)
    (h1 : M.scalerFit (reshape1 data) = Except.ok p)
    (h2 : M.scalerTransform p (reshape1 data) = Except.ok scaled)
    (h3 : M.forestFit c scaled = Except.error e) :
    train M now fs st data c =
      (fs, { scaler := some p, model := ModelField.unfitForest,
             is_trained := st.is_trained, threshold := st.threshold },
       errReport e now) := by
  unfold train
  simp [h1, h2, h3]

theorem train_status_cases (M : MLImpl P F L) (now : String) (fs : FS P F)
    (st : AnomalyDetectionModel P F L) (data : List ℚ) (c : ℚ) :
    (train M now fs st data c).2.2.status = "success" ∨
    (train M now fs st data c).2.2.status = "error" := by
  cases hf1 : M.scalerFit (reshape1 data) with
  | error e => right; rw [train_eval_err1 M now fs st data c e hf1]; rfl
  | ok p =>
    cases hf2 : M.scalerTransform p (reshape1 data) with
    | error e => right; rw [train_eval_err2 M now fs st data c p e hf1 hf2]; rfl
    | ok scaled =>
      cases hf3 : M.forestFit c scaled with
      | error e => right; rw [train_eval_err3 M now fs st data c p scaled e hf1 hf2 hf3]; rfl
      | ok f =>
        cases hsc : M.forestScore f scaled with
        | nil =>
            right
            unfold train
            simp [hf1, hf2, hf3, hsc, errReport]
        | cons x xs =>
            left
            rw [train_eval_success M now fs st data c p scaled f hf1 hf2 hf3 (by rw [hsc]; simp)]

/-- C1: scoring uses exactly the feature-scaling parameters computed during
fit and never refits them.  After a successful `train`, the fitted scaler
parameters are the ones `fit_transform` computed on the training data; any
number of subsequent `predict` calls leaves the scaler (indeed the whole
instance state) unchanged, and every `predict` transforms its input with
exactly those training-time parameters. -/
theorem scaler_fit_once (M : MLImpl P F L) (now : String) (fs : FS P F)
    (st : AnomalyDetectionModel P F L) (data : List ℚ) (c : ℚ)
    (hs : (train M now fs st data c).2.2.status = "success") :
    ∃ p f,
      M.scalerFit (reshape1 data) = Except.ok p ∧
      (train M now fs st data c).2.1.scaler = some p ∧
      (train M now fs st data c).2.1.model = ModelField.fittedForest f ∧
      ∀ ds : List (List ℚ),
        predictSeq M (train M now fs st data c).1 (train M now fs st data c).2.1 ds
          = (train M now fs st data c).2.1 ∧
        ∀ d scaled, M.scalerTransform p (reshape1 d) = Except.ok scaled →
          predict M (train M now fs st data c).1
              (predictSeq M (train M now fs st data c).1 (train M now fs st data c).2.1 ds) d
            = ((train M now fs st data c).2.1,
               Except.ok ((M.forestScore f scaled).map (fun s => -s),
                 (M.forestPredict f scaled).map (fun q => if q = -1 then (1 : ℕ) else 0))) := by
  obtain ⟨p, scaled0, f, h1, h2, h3, h4⟩ := train_success_inv M now fs st data c hs
  have htr := train_eval_success M now fs st data c p scaled0 f h1 h2 h3 h4
  have hm : (train M now fs st data c).2.1.model = ModelField.fittedForest f := by
    rw [htr]
  have hscp : (train M now fs st data c).2.1.scaler = some p := by
    rw [htr]
  have hit : (train M now fs st data c).2.1.is_trained = true := by
    rw [htr]
  refine ⟨p, f, h1, hscp, hm, ?_⟩
  intro ds
  have hseq := predictSeq_preserves_state M (train M now fs st data c).1
    (train M now fs st data c).2.1 ds f hm
  refine ⟨hseq, ?_⟩
  intro d scaled htf
  rw [hseq]
  exact predict_eval M (train M now fs st data c).1 (train M now fs st data c).2.1
    d f p scaled hm hscp hit htf

/-- Abbreviation for the fresh instance state over the concrete types. -/
def cInit : AnomalyDetectionModel (ℚ × ℚ) (List (List ℚ)) (List (List ℚ)) :=
  initModel (ℚ × ℚ) (List (List ℚ)) (List (List ℚ))

/-- C1 witness: a concrete successful training run on `[1, 2, 3]`. -/
theorem scaler_fit_once_witness :
    ∃ p f,
      cM.scalerFit (reshape1 [1, 2, 3]) = Except.ok p ∧
      (train cM "t0" cFS0 cInit [1, 2, 3] (1/10)).2.1.scaler = some p ∧
      (train cM "t0" cFS0 cInit [1, 2, 3] (1/10)).2.1.model = ModelField.fittedForest f ∧
      ∀ ds : List (List ℚ),
        predictSeq cM (train cM "t0" cFS0 cInit [1, 2, 3] (1/10)).1
            (train cM "t0" cFS0 cInit [1, 2, 3] (1/10)).2.1 ds
          = (train cM "t0" cFS0 cInit [1, 2, 3] (1/10)).2.1 ∧
        ∀ d scaled, cM.scalerTransform p (reshape1 d) = Except.ok scaled →
          predict cM (train cM "t0" cFS0 cInit [1, 2, 3] (1/10)).1
              (predictSeq cM (train cM "t0" cFS0 cInit [1, 2, 3] (1/10)).1
                (train cM "t0" cFS0 cInit [1, 2, 3] (1/10)).2.1 ds) d
            = ((train cM "t0" cFS0 cInit [1, 2, 3] (1/10)).2.1,
               Except.ok ((cM.forestScore f scaled).map (fun s => -s),
                 (cM.forestPredict f scaled).map (fun q => if q = -1 then (1 : ℕ) else 0))) :=
  scaler_fit_once cM "t0" cFS0 cInit [1, 2, 3] (1/10) (by
    norm_num [train, cM, cScalerFit, cScalerTransform, cForestFit, cForestScore,
      reshape1, cInit, initModel, cFS0])

theorem cScalerFit_ok (rows : List (List ℚ)) (h : rows.isEmpty = false) :
    cScalerFit rows = Except.ok (listMean (rows.map (fun r => r.headD 0)), 1) := by
  unfold cScalerFit
  rw [h]
  rfl

theorem cScalerTransform_ok (p : ℚ × ℚ) (rows : List (List ℚ)) (h : rows.isEmpty = false) :
    cScalerTransform p rows
      = Except.ok (rows.map (fun r => r.map (fun v => (v - p.1) / p.2))) := by
  unfold cScalerTransform
  rw [h]
  rfl

theorem cForestFit_ok (c : ℚ) (rows : List (List ℚ)) (h : rows.isEmpty = false)
    (hc : 0 ≤ c ∧ c ≤ 1/2) :
    cForestFit c rows = Except.ok rows := by
  unfold cForestFit
  rw [h]
  simp only [Bool.false_eq_true, if_false]
  rw [if_pos hc]

theorem cForestFit_reject (c : ℚ) (rows : List (List ℚ)) (h : rows.isEmpty = false)
    (hc : ¬ (0 ≤ c ∧ c ≤ 1/2)) :
    cForestFit c rows = Except.error "contamination must be in the interval 0 to 0.5" := by
  unfold cForestFit
  rw [h]
  simp only [Bool.false_eq_true, if_false]
  rw [if_neg hc]

/-- C5: `train` never raises: the returned report always carries status
success or error.  Whenever every step of fitting succeeds (and the library
returns a score per sample), the trained flag is set, both artifacts are
persisted, and the report carries status success, the sample count, the mean,
max and min anomaly score over the training set, and the timestamp.  Whenever
any step of fitting fails, the exception is converted into a status=error
report carrying the message instead of propagating. -/
theorem train_report_spec (M : MLImpl P F L) (now : String) (fs : FS P F)
    (st : AnomalyDetectionModel P F L) (data : List ℚ) (c : ℚ) :
    ((train M now fs st data c).2.2.status = "success" ∨
      (train M now fs st data c).2.2.status = "error") ∧
    (∀ p scaled f,
      M.scalerFit (reshape1 data) = Except.ok p →
      M.scalerTransform p (reshape1 data) = Except.ok scaled →
      M.forestFit c scaled = Except.ok f →
      M.forestScore f scaled ≠ [] →
      train M now fs st data c =
        ({ modelFile := some f, scalerFile := some p },
         { scaler := some p, model := ModelField.fittedForest f,
           is_trained := true, threshold := st.threshold },
         { status := "success", message := "Model trained successfully",
           samples_trained := some data.length,
           mean_score := some (listMean ((M.forestScore f scaled).map (fun s => -s))),
           max_score := some (listMax ((M.forestScore f scaled).map (fun s => -s))),
           min_score := some (listMin ((M.forestScore f scaled).map (fun s => -s))),
           timestamp := now })) ∧
    (∀ e, M.scalerFit (reshape1 data) = Except.error e →
      (train M now fs st data c).2.2 = errReport e now) ∧
    (∀ p e, M.scalerFit (reshape1 data) = Except.ok p →
      M.scalerTransform p (reshape1 data) = Except.error e →
      (train M now fs st data c).2.2 = errReport e now) ∧
    (∀ p scaled e, M.scalerFit (reshape1 data) = Except.ok p →
      M.scalerTransform p (reshape1 data) = Except.ok scaled →
      M.forestFit c scaled = Except.error e →
      (train M now fs st data c).2.2 = errReport e now) := by
  refine ⟨train_status_cases M now fs st data c, ?_, ?_, ?_, ?_⟩
  · intro p scaled f h1 h2 h3 h4
    rw [train_eval_success M now fs st data c p scaled f h1 h2 h3 h4]
    simp [reshape1]
  · intro e h
    rw [train_eval_err1 M now fs st data c e h]
  · intro p e h1 h2
    rw [train_eval_err2 M now fs st data c p e h1 h2]
  · intro p scaled e h1 h2 h3
    rw [train_eval_err3 M now fs st data c p scaled e h1 h2 h3]

/-- The linear-ramp training series `1, 2, ..., 100` from the spec scenario. -/
def wData : List ℚ := (List.range 100).map (fun n => (n : ℚ) + 1)

theorem wData_rows_ne : (reshape1 wData).isEmpty = false := by
  rfl

theorem wData_length : wData.length = 100 := by decide

/-- C5 witness: training on the 100-element ramp succeeds with
`samples_trained = 100`, the trained flag set and both artifacts persisted. -/
theorem train_report_spec_witness :
    (train cM "t0" cFS0 cInit wData (1/10)).2.2.status = "success" ∧
    (train cM "t0" cFS0 cInit wData (1/10)).2.2.samples_trained = some 100 ∧
    (train cM "t0" cFS0 cInit wData (1/10)).2.1.is_trained = true ∧
    (train cM "t0" cFS0 cInit wData (1/10)).1.modelFile.isSome = true ∧
    (train cM "t0" cFS0 cInit wData (1/10)).1.scalerFile.isSome = true := by
  have h1 := cScalerFit_ok (reshape1 wData) wData_rows_ne
  have h2 := cScalerTransform_ok (listMean ((reshape1 wData).map (fun r => r.headD 0)), 1)
    (reshape1 wData) wData_rows_ne
  have h3 := cForestFit_ok (1/10)
    ((reshape1 wData).map (fun r => r.map (fun v =>
      (v - (listMean ((reshape1 wData).map (fun r2 => r2.headD 0)), (1:ℚ)).1) /
      (listMean ((reshape1 wData).map (fun r2 => r2.headD 0)), (1:ℚ)).2)))
    (by rfl) (by norm_num)
  have h4 : cM.forestScore
      ((reshape1 wData).map (fun r => r.map (fun v =>
        (v - (listMean ((reshape1 wData).map (fun r2 => r2.headD 0)), (1:ℚ)).1) /
        (listMean ((reshape1 wData).map (fun r2 => r2.headD 0)), (1:ℚ)).2)))
      ((reshape1 wData).map (fun r => r.map (fun v =>
        (v - (listMean ((reshape1 wData).map (fun r2 => r2.headD 0)), (1:ℚ)).1) /
        (listMean ((reshape1 wData).map (fun r2 => r2.headD 0)), (1:ℚ)).2))) ≠ [] := by
    simp only [cM, cForestScore]
    intro hnil
    have h100 := congrArg List.length hnil
    rw [List.length_map, List.length_map] at h100
    unfold reshape1 at h100
    rw [List.length_map, wData_length] at h100
    exact absurd h100 (by decide)
  have hmain := (train_report_spec cM "t0" cFS0 cInit wData (1/10)).2.1 _ _ _ h1 h2 h3 h4
  rw [hmain]
  refine ⟨rfl, ?_, rfl, rfl, rfl⟩
  show some wData.length = some 100
  decide

/-- C6: `predict` on a freshly constructed, never-trained instance fails with
the explicit not-trained exception when no model file is persisted — raised to
the caller, never defaulted to a result; when both persisted artifacts exist,
`predict` instead lazily loads them into the instance and does not raise the
not-trained exception. -/
theorem predict_not_trained_guard (M : MLImpl P F L) (fs : FS P F) (d : List ℚ) :
    (fs.modelFile = none →
      predict M fs (initModel P F L) d
        = (initModel P F L, Except.error PredErr.notTrained)) ∧
    (∀ f p, fs.modelFile = some f → fs.scalerFile = some p →
      (predict M fs (initModel P F L) d).1.model = ModelField.fittedForest f ∧
      (predict M fs (initModel P F L) d).1.scaler = some p ∧
      (predict M fs (initModel P F L) d).2 ≠ Except.error PredErr.notTrained) := by
  constructor
  · intro h
    unfold predict
    simp [h, initModel]
  · intro f p hf hp
    unfold predict
    simp only [initModel, hf, hp, Bool.not_false, Option.isNone_some, Bool.and_false,
      Bool.false_eq_true, if_false]
    cases htf : M.scalerTransform p (reshape1 d) with
    | error e => simp [htf]
    | ok scaled => simp [htf]

/-- C6 witness: concrete fresh instance with no files raises the not-trained
error; with both artifacts present it loads them and does not raise it. -/
theorem predict_not_trained_guard_witness :
    predict cM cFS0 cInit [1, 2]
      = (cInit, Except.error PredErr.notTrained) ∧
    ((predict cM { modelFile := some [[0]], scalerFile := some (0, 1) } cInit [1, 2]).1.model
        = ModelField.fittedForest [[0]] ∧
      (predict cM { modelFile := some [[0]], scalerFile := some (0, 1) } cInit [1, 2]).2
        ≠ Except.error PredErr.notTrained) := by
  have h1 := (predict_not_trained_guard cM cFS0 [1, 2]).1 rfl
  have h2 := (predict_not_trained_guard cM
    { modelFile := some [[0]], scalerFile := some (0, 1) } [1, 2]).2 [[0]] (0, 1) rfl rfl
  exact ⟨h1, h2.1, h2.2.2⟩

/-- C9: the not-trained guard of `predict` tests only the model file: on an
untrained instance (trained flag false, no model loaded) with a model file
present but the scaler file absent, `predict` does not raise the not-trained
exception; it proceeds to load, replaces the model attribute with the loaded
artifact, and the failure surfaced is the load failure on the scaler file. -/
theorem predict_scaler_gap (M : MLImpl P F L) (f : F) (d : List ℚ)
    (st : AnomalyDetectionModel P F L)
    (h1 : st.is_trained = false) (h2 : st.model = ModelField.noModel) :
    predict M { modelFile := some f, scalerFile := none } st d
      = ({ scaler := st.scaler, model := ModelField.fittedForest f,
           is_trained := st.is_trained, threshold := st.threshold },
         Except.error PredErr.loadFailure) := by
  unfold predict
  simp [h1, h2]

/-- C9 witness: concrete untrained instance, model file present, scaler file
absent: the surfaced failure is the load failure, not the not-trained error. -/
theorem predict_scaler_gap_witness :
    predict cM { modelFile := some [[0]], scalerFile := none } cInit [1, 2]
      = ({ scaler := cInit.scaler, model := ModelField.fittedForest [[0]],
           is_trained := cInit.is_trained, threshold := cInit.threshold },
         Except.error PredErr.loadFailure) :=
  predict_scaler_gap cM [[0]] [1, 2] cInit rfl rfl

/-- C7 counterexample: `train` does not reject an out-of-range contamination
at the API boundary before mutating state.  With contamination `3/5 > 1/2`,
the scaler of a fresh instance is refit (mutated away from its initial
unfitted state) before the contamination failure surfaces, and the failure is
returned as a status=error report, not an exception raised before mutation. -/
theorem contamination_boundary_cex :
    ¬ ((0:ℚ) ≤ 3/5 ∧ (3:ℚ)/5 ≤ 1/2) ∧
    (train cM "t0" cFS0 cInit [1, 2, 3] (3/5)).2.2.status = "error" ∧
    (train cM "t0" cFS0 cInit [1, 2, 3] (3/5)).2.1.scaler ≠ cInit.scaler := by
  have hc : ¬ ((0:ℚ) ≤ 3/5 ∧ (3:ℚ)/5 ≤ 1/2) := by norm_num
  have h1 := cScalerFit_ok (reshape1 [1, 2, 3]) rfl
  have h2 := cScalerTransform_ok
    (listMean ((reshape1 [1, 2, 3]).map (fun r => r.headD 0)), 1) (reshape1 [1, 2, 3]) rfl
  have h3 := cForestFit_reject (3/5)
    ((reshape1 [1, 2, 3]).map (fun r => r.map (fun v =>
      (v - (listMean ((reshape1 [1, 2, 3]).map (fun r2 => r2.headD 0)), (1:ℚ)).1) /
      (listMean ((reshape1 [1, 2, 3]).map (fun r2 => r2.headD 0)), (1:ℚ)).2)))
    rfl hc
  have htr := train_eval_err3 cM "t0" cFS0 cInit [1, 2, 3] (3/5) _ _ _ h1 h2 h3
  rw [htr]
  exact ⟨hc, rfl, by simp [cInit, initModel]⟩

/-- C7 amended: `set_threshold` validates at the API boundary: it succeeds
exactly for thresholds in the inclusive interval `[0, 1]`, storing the new
threshold, and on failure raises leaving the stored threshold (and all state)
unchanged.  `train`, by contrast, performs no contamination validation of its
own: when the underlying forest fit rejects the contamination, the scaler has
already been refit to the new data, and the failure is returned as a
status=error report rather than rejected before mutation. -/
theorem set_threshold_range_spec (st : AnomalyDetectionModel P F L) (t : ℚ)
    (M : MLImpl P F L) (now : String) (fs : FS P F) (data : List ℚ) (c : ℚ) :
    (0 ≤ t ∧ t ≤ 1 →
      set_threshold st t
        = ({ scaler := st.scaler, model := st.model, is_trained := st.is_trained,
             threshold := t }, none)) ∧
    (¬ (0 ≤ t ∧ t ≤ 1) →
      set_threshold st t = (st, some "Threshold must be between 0 and 1")) ∧
    (∀ p scaled e,
      M.scalerFit (reshape1 data) = Except.ok p →
      M.scalerTransform p (reshape1 data) = Except.ok scaled →
      M.forestFit c scaled = Except.error e →
      (train M now fs st data c).2.1.scaler = some p ∧
      (train M now fs st data c).2.2 = errReport e now) := by
  refine ⟨?_, ?_, ?_⟩
  · intro h
    unfold set_threshold
    rw [if_pos h]
  · intro h
    unfold set_threshold
    rw [if_neg h]
  · intro p scaled e h1 h2 h3
    rw [train_eval_err3 M now fs st data c p scaled e h1 h2 h3]
    exact ⟨rfl, rfl⟩

/-- C7 witness: the boundary values 0 and 1 are accepted, 3/2 is rejected
leaving the state unchanged, and a rejected contamination surfaces as an error
report after the scaler was refit. -/
theorem set_threshold_range_spec_witness :
    set_threshold cTrained 0
      = ({ scaler := cTrained.scaler, model := cTrained.model,
           is_trained := cTrained.is_trained, threshold := 0 }, none) ∧
    set_threshold cTrained 1
      = ({ scaler := cTrained.scaler, model := cTrained.model,
           is_trained := cTrained.is_trained, threshold := 1 }, none) ∧
    set_threshold cTrained (3/2)
      = (cTrained, some "Threshold must be between 0 and 1") ∧
    (train cM "t0" cFS0 cInit [1, 2, 3] (3/5)).2.2
      = errReport "contamination must be in the interval 0 to 0.5" "t0" := by
  have h0 := (set_threshold_range_spec cTrained 0 cM "t0" cFS0 [1, 2, 3] (3/5)).1
    (by norm_num)
  have hone := (set_threshold_range_spec cTrained 1 cM "t0" cFS0 [1, 2, 3] (3/5)).1
    (by norm_num)
  have hbad := (set_threshold_range_spec cTrained (3/2) cM "t0" cFS0 [1, 2, 3] (3/5)).2.1
    (by norm_num)
  have h1 := cScalerFit_ok (reshape1 [1, 2, 3]) rfl
  have h2 := cScalerTransform_ok
    (listMean ((reshape1 [1, 2, 3]).map (fun r => r.headD 0)), 1) (reshape1 [1, 2, 3]) rfl
  have h3 := cForestFit_reject (3/5)
    ((reshape1 [1, 2, 3]).map (fun r => r.map (fun v =>
      (v - (listMean ((reshape1 [1, 2, 3]).map (fun r2 => r2.headD 0)), (1:ℚ)).1) /
      (listMean ((reshape1 [1, 2, 3]).map (fun r2 => r2.headD 0)), (1:ℚ)).2)))
    rfl (by norm_num)
  have hcon := (set_threshold_range_spec cInit (3/2) cM "t0" cFS0 [1, 2, 3] (3/5)).2.2
    _ _ _ h1 h2 h3
  exact ⟨h0, hone, hbad, hcon.2⟩

theorem pbLoop_ok_length (M : MLImpl P F L) (fs : FS P F) :
    ∀ (ds : List (List ℚ)) (st st1 : AnomalyDetectionModel P F L) (i : ℕ)
      (rs : List (String × SeqResult)),
      pbLoop M fs st i ds = (st1, Except.ok rs) → rs.length = ds.length := by
  intro ds
  induction ds with
  | nil =>
      intro st st1 i rs h
      unfold pbLoop at h
      simp only [Prod.mk.injEq, Except.ok.injEq] at h
      rw [← h.2]
      rfl
  | cons d rest ih =>
      intro st st1 i rs h
      unfold pbLoop at h
      cases hpr : predict M fs st d with
      | mk st2 res =>
          rw [hpr] at h
          cases res with
          | error e => simp at h
          | ok pr =>
              obtain ⟨scores, labels⟩ := pr
              simp only at h
              cases hm : natMax? labels with
              | none => rw [hm] at h; simp at h
              | some m =>
                  rw [hm] at h
                  simp only at h
                  cases hlp : pbLoop M fs st2 (i + 1) rest with
                  | mk st3 res2 =>
                      rw [hlp] at h
                      cases res2 with
                      | error msg => simp at h
                      | ok rs2 =>
                          simp only [Prod.mk.injEq, Except.ok.injEq] at h
                          rw [← h.2]
                          simp [ih st2 st3 (i + 1) rs2 hlp]

/-- C2 counterexample: with a trained in-memory instance, `predict` succeeds
on the first series `[1]` alone, yet a batch whose second series is empty
(making `predict` raise there) returns a whole-batch status=error report with
no per-series results at all: the completed first series is absent and the
third series contributes nothing, contradicting per-series isolation. -/
theorem predict_batch_isolation_cex :
    (predict cM cFS0 cTrained [1]).2 = Except.ok ([1], [0]) ∧
    (predict_batch cM "t0" cFS0 cTrained [[1], [], [2]]).2.status = "error" ∧
    (predict_batch cM "t0" cFS0 cTrained [[1], [], [2]]).2.predictions = [] ∧
    (predict_batch cM "t0" cFS0 cTrained [[1], [], [2]]).2.message
      = some "Error during prediction: Found array with 0 samples" := by
  refine ⟨?_, ?_, ?_, ?_⟩ <;>
    (norm_num [predict_batch, pbLoop, predict, cM, cTrained, cFS0, cScalerTransform,
      cForestScore, cForestPredict, reshape1, natMax?, PredErr.message]
     try rfl)

/-- C2 amended: `predict_batch` runs `predict` on the series in order inside a
single guarded block, so the first per-series exception aborts the whole
batch: the report degrades to status=error carrying that exception's message,
the results of series already completed are discarded (the error report has no
predictions at all), and later series are not processed; only when every
series succeeds does the report carry status=success with one keyed result per
series. -/
theorem predict_batch_abort_spec (M : MLImpl P F L) (now : String) (fs : FS P F)
    (st : AnomalyDetectionModel P F L) (ds : List (List ℚ)) :
    ((predict_batch M now fs st ds).2.status = "success" ∨
      (predict_batch M now fs st ds).2.status = "error") ∧
    ((predict_batch M now fs st ds).2.status = "error" →
      (predict_batch M now fs st ds).2.predictions = [] ∧
      ∃ msg, (predict_batch M now fs st ds).2.message = some msg) ∧
    ((predict_batch M now fs st ds).2.status = "success" →
      (predict_batch M now fs st ds).2.predictions.length = ds.length ∧
      (predict_batch M now fs st ds).2.message = none) := by
  unfold predict_batch
  cases hp : pbLoop M fs st 0 ds with
  | mk st1 res =>
      cases res with
      | ok rs =>
          refine ⟨Or.inl rfl, ?_, ?_⟩
          · intro h
            simp at h
          · intro _
            exact ⟨pbLoop_ok_length M fs ds st st1 0 rs hp, rfl⟩
      | error msg =>
          refine ⟨Or.inr rfl, ?_, ?_⟩
          · intro _
            exact ⟨rfl, msg, rfl⟩
          · intro h
            simp at h

/-- C2 amended-claim witness: on the concrete failing batch the error report
carries no predictions and a message; on an all-success batch the success
report has one entry per series. -/
theorem predict_batch_abort_spec_witness :
    ((predict_batch cM "t0" cFS0 cTrained [[1], [], [2]]).2.predictions = [] ∧
      ∃ msg, (predict_batch cM "t0" cFS0 cTrained [[1], [], [2]]).2.message = some msg) ∧
    ((predict_batch cM "t0" cFS0 cTrained [[3], [4]]).2.predictions.length = 2 ∧
      (predict_batch cM "t0" cFS0 cTrained [[3], [4]]).2.message = none) := by
  have herr := (predict_batch_abort_spec cM "t0" cFS0 cTrained [[1], [], [2]]).2.1 (by
    norm_num [predict_batch, pbLoop, predict, cM, cTrained, cFS0, cScalerTransform,
      cForestScore, cForestPredict, reshape1, natMax?, PredErr.message])
  have hok := (predict_batch_abort_spec cM "t0" cFS0 cTrained [[3], [4]]).2.2 (by
    norm_num [predict_batch, pbLoop, predict, cM, cTrained, cFS0, cScalerTransform,
      cForestScore, cForestPredict, reshape1, natMax?, PredErr.message])
  exact ⟨herr, hok⟩

theorem get_model_fs (g : GlobalState P F L) : (get_model g).1.fs = g.fs := by
  unfold get_model
  cases h : g.singleton with
  | some m => rfl
  | none => rfl

theorem twd_fs_frame (M : MLImpl P F L) (csv : Except String (List ℚ))
    (g : GlobalState P F L) :
    (train_with_dataset M csv g).1.fs = g.fs := by
  unfold train_with_dataset
  cases csv with
  | error e => rfl
  | ok values =>
      cases hp : prepare_data values 30 with
      | error e => simp [hp]
      | ok trip =>
          obtain ⟨sequences, mn, mx⟩ := trip
          simp only [hp]
          by_cases hlen : sequences.length = 0
          · simp [hlen]
          · simp only [hlen, if_false]
            cases hl : M.lstmTrain sequences 50 32 with
            | error e => simp [hl]
            | ok lstm =>
                simp only [hl]
                exact get_model_fs g

theorem twd_true_inv (M : MLImpl P F L) (csv : Except String (List ℚ))
    (g : GlobalState P F L) (h : (train_with_dataset M csv g).2 = true) :
    ∃ values sequences mn mx lstm,
      csv = Except.ok values ∧
      prepare_data values 30 = Except.ok (sequences, mn, mx) ∧
      sequences.length ≠ 0 ∧
      M.lstmTrain sequences 50 32 = Except.ok lstm ∧
      (train_with_dataset M csv g).1.singleton
        = some { scaler := (get_model g).2.scaler, model := ModelField.lstmModel lstm,
                 is_trained := true, threshold := (get_model g).2.threshold } := by
  cases hcsv : csv with
  | error e =>
      rw [hcsv] at h
      simp [train_with_dataset] at h
  | ok values =>
      rw [hcsv] at h
      cases hp : prepare_data values 30 with
      | error e =>
          unfold train_with_dataset at h
          simp [hp] at h
      | ok trip =>
          obtain ⟨sequences, mn, mx⟩ := trip
          by_cases hlen : sequences.length = 0
          · unfold train_with_dataset at h
            simp [hp, hlen] at h
          · cases hl : M.lstmTrain sequences 50 32 with
            | error e =>
                unfold train_with_dataset at h
                simp [hp, hlen, hl] at h
            | ok lstm =>
                refine ⟨values, sequences, mn, mx, lstm, rfl, hp, hlen, hl, ?_⟩
                unfold train_with_dataset
                simp only [hp, hlen, if_false, hl]

theorem twd_err_csv (M : MLImpl P F L) (g : GlobalState P F L) (e : String) :
    train_with_dataset M (Except.error e) g = (g, false) := rfl

theorem twd_err_prep (M : MLImpl P F L) (g : GlobalState P F L)
    (values : List ℚ) (e : String) (hp : prepare_data values 30 = Except.error e) :
    train_with_dataset M (Except.ok values) g = (g, false) := by
  unfold train_with_dataset
  simp [hp]

theorem twd_empty_seq (M : MLImpl P F L) (g : GlobalState P F L)
    (values : List ℚ) (sequences : List (List ℚ)) (mn mx : ℚ)
    (hp : prepare_data values 30 = Except.ok (sequences, mn, mx))
    (hlen : sequences.length = 0) :
    train_with_dataset M (Except.ok values) g = (g, false) := by
  unfold train_with_dataset
  simp [hp, hlen]

theorem twd_err_lstm (M : MLImpl P F L) (g : GlobalState P F L)
    (values : List ℚ) (sequences : List (List ℚ)) (mn mx : ℚ) (e : String)
    (hp : prepare_data values 30 = Except.ok (sequences, mn, mx))
    (hlen : sequences.length ≠ 0)
    (hl : M.lstmTrain sequences 50 32 = Except.error e) :
    train_with_dataset M (Except.ok values) g = (g, false) := by
  unfold train_with_dataset
  simp [hp, hlen, hl]

/-- C8: `train_with_dataset` never raises: it returns `true` exactly when the
whole pipeline completed, in which case the freshly trained sequence model has
been assigned into the process-wide singleton and marked trained; on every
failure — a load or format error, zero generated sequences, or an exception
during LSTM training — it returns `false` with all state untouched. -/
theorem train_with_dataset_failsoft (M : MLImpl P F L)
    (csv : Except String (List ℚ)) (g : GlobalState P F L) :
    ((train_with_dataset M csv g).2 = true →
      ∃ values sequences mn mx lstm,
        csv = Except.ok values ∧
        prepare_data values 30 = Except.ok (sequences, mn, mx) ∧
        sequences.length ≠ 0 ∧
        M.lstmTrain sequences 50 32 = Except.ok lstm ∧
        (train_with_dataset M csv g).1.singleton
          = some { scaler := (get_model g).2.scaler,
                   model := ModelField.lstmModel lstm,
                   is_trained := true, threshold := (get_model g).2.threshold }) ∧
    (∀ e, csv = Except.error e → train_with_dataset M csv g = (g, false)) ∧
    (∀ values e, csv = Except.ok values → prepare_data values 30 = Except.error e →
      train_with_dataset M csv g = (g, false)) ∧
    (∀ values sequences mn mx, csv = Except.ok values →
      prepare_data values 30 = Except.ok (sequences, mn, mx) → sequences.length = 0 →
      train_with_dataset M csv g = (g, false)) ∧
    (∀ values sequences mn mx e, csv = Except.ok values →
      prepare_data values 30 = Except.ok (sequences, mn, mx) → sequences.length ≠ 0 →
      M.lstmTrain sequences 50 32 = Except.error e →
      train_with_dataset M csv g = (g, false)) := by
  refine ⟨twd_true_inv M csv g, ?_, ?_, ?_, ?_⟩
  · intro e h
    rw [h]
    exact twd_err_csv M g e
  · intro values e h hp
    rw [h]
    exact twd_err_prep M g values e hp
  · intro values sequences mn mx h hp hlen
    rw [h]
    exact twd_empty_seq M g values sequences mn mx hp hlen
  · intro values sequences mn mx e h hp hlen hl
    rw [h]
    exact twd_err_lstm M g values sequences mn mx e hp hlen hl

/-- A 30-value series, exactly one window of length 30. -/
def wSmall : List ℚ := (List.range 30).map (fun n => (n : ℚ))

/-- Fresh module state: no singleton yet, no artifact files. -/
def cG0 : GlobalState (ℚ × ℚ) (List (List ℚ)) (List (List ℚ)) :=
  { singleton := none, fs := cFS0 }

/-- C8 witness: a concrete 30-value dataset trains successfully: the facade
returns `true` and the singleton holds the trained sequence model. -/
theorem train_with_dataset_failsoft_witness :
    ∃ values sequences mn mx lstm,
      (Except.ok wSmall : Except String (List ℚ)) = Except.ok values ∧
      prepare_data values 30 = Except.ok (sequences, mn, mx) ∧
      sequences.length ≠ 0 ∧
      cM.lstmTrain sequences 50 32 = Except.ok lstm ∧
      (train_with_dataset cM (Except.ok wSmall) cG0).1.singleton
        = some { scaler := (get_model cG0).2.scaler,
                 model := ModelField.lstmModel lstm,
                 is_trained := true, threshold := (get_model cG0).2.threshold } :=
  (train_with_dataset_failsoft cM (Except.ok wSmall) cG0).1 rfl

/-- C10: `train_with_dataset` writes nothing to disk: the artifact files are
untouched in every branch, so while a successful run marks the in-memory
singleton trained with the new sequence model, `load_model` in a fresh
process, relying only on the files, sees exactly what it would have seen
before the training. -/
theorem train_with_dataset_no_persist (M : MLImpl P F L)
    (csv : Except String (List ℚ)) (g : GlobalState P F L) :
    (train_with_dataset M csv g).1.fs = g.fs ∧
    ((train_with_dataset M csv g).2 = true →
      ∃ st lstm, (train_with_dataset M csv g).1.singleton = some st ∧
        st.is_trained = true ∧ st.model = ModelField.lstmModel lstm) ∧
    load_model ({ singleton := none, fs := (train_with_dataset M csv g).1.fs } :
        GlobalState P F L)
      = load_model ({ singleton := none, fs := g.fs } : GlobalState P F L) := by
  refine ⟨twd_fs_frame M csv g, ?_, ?_⟩
  · intro h
    obtain ⟨values, sequences, mn, mx, lstm, _, _, _, _, hsing⟩ := twd_true_inv M csv g h
    exact ⟨_, lstm, hsing, rfl, rfl⟩
  · rw [twd_fs_frame M csv g]

/-- C10 witness: the concrete successful run leaves the files untouched while
the singleton holds a trained in-memory model. -/
theorem train_with_dataset_no_persist_witness :
    (train_with_dataset cM (Except.ok wSmall) cG0).1.fs = cG0.fs ∧
    (∃ st lstm, (train_with_dataset cM (Except.ok wSmall) cG0).1.singleton = some st ∧
      st.is_trained = true ∧ st.model = ModelField.lstmModel lstm) := by
  have h := train_with_dataset_no_persist cM (Except.ok wSmall) cG0
  exact ⟨h.1, h.2.1 rfl⟩
